import Mathlib

/-
Verification of the SRE-Orchestrator investigation engine.

This file is a shallow embedding, in Lean 4, of the core of the
SRE-Orchestrator repository:

* `retry_utils.py`            (retry runner with exponential backoff)
* `investigation_agent.py`    (agent graph, routing, result extraction)
* `incident_repository.py`    (incident store and lifecycle)
* `mcp_tool_manager.py`       (MCP tool registry)

Python values are modelled as follows: float delays become rationals,
datetimes become abstract `Nat` clock ticks supplied by the caller,
exceptions become `Except String` (the string is `str(e)`), awaited
external collaborators (the LLM, the MCP tool servers, the multiplexed
MCP client, the status-update callback) become explicit function
parameters describing their outcome, and the duck-typed LangChain
messages become a tagged `Message` type.  `asyncio.sleep` is modelled by
recording the slept durations in a list.  Regex-based extraction helpers
are implemented directly over `List Char`, following the semantics of
the concrete patterns in the source (leftmost match, greedy whitespace,
lazy capture groups).
-/

deriving instance DecidableEq for Except

namespace SREOrch

/-! ## Retry runner (`retry_utils.py`) -/

/-- `RetryConfig` from `retry_utils.py` (delays as rationals).
The `retryable_exceptions` classification is carried per failure on
`Attempt.failure` instead of as a list of exception types. -/
structure RetryConfig where
  max_attempts : Nat
  initial_delay : ℚ
  max_delay : ℚ
  exponential_base : ℚ
deriving DecidableEq

/-- Outcome of one attempt of the wrapped async operation: either a
value, or an exception message together with its classification by
`config.retryable_exceptions` (`isinstance` check in the source). -/
inductive Attempt (α : Type) where
  | success (v : α)
  | failure (msg : String) (retryable : Bool)
deriving DecidableEq

/-- `delay = min(delay * config.exponential_base, config.max_delay)`
from `retry_async`. -/
def nextDelay (base maxDelay d : ℚ) : ℚ := min (d * base) maxDelay

/-- The `for attempt in range(1, config.max_attempts + 1)` loop of
`retry_async`.  `remaining` counts the attempts left (loop fuel),
`attempt` is the 1-based attempt counter, `delay` the current backoff
delay and `sleeps` the reversed list of performed sleeps.  A
non-retryable failure re-raises immediately; a retryable failure on the
last attempt falls through the loop and raises the last exception. -/
def retryGo (attempts : Nat → Attempt α) (base maxDelay : ℚ) :
    Nat → Nat → ℚ → List ℚ → List ℚ × Except String α
  | 0, _, _, sleeps => (sleeps.reverse, .error "retry loop ran no attempts")
  | remaining + 1, attempt, delay, sleeps =>
      match attempts attempt with
      | .success v => (sleeps.reverse, .ok v)
      | .failure msg retryable =>
          if retryable then
            if remaining = 0 then (sleeps.reverse, .error msg)
            else
              retryGo attempts base maxDelay remaining (attempt + 1)
                (nextDelay base maxDelay delay) (delay :: sleeps)
          else (sleeps.reverse, .error msg)

/-- `retry_async(func, config, ...)`: returns the list of sleeps
performed (in order) and either the first successful value or the
exception that was re-raised. -/
def retry_async (attempts : Nat → Attempt α) (config : RetryConfig) :
    List ℚ × Except String α :=
  retryGo attempts config.exponential_base config.max_delay
    config.max_attempts 1 config.initial_delay []

/-! ## Messages and graph state (`investigation_agent.py`) -/

/-- A LangChain tool call dict `{id, name, args}`; arguments are
modelled as string key/value pairs. -/
structure ToolCall where
  id : String
  name : String
  args : List (String × String)
deriving DecidableEq

/-- Tagged variant for the duck-typed LangChain messages.  Only
`AIMessage` has a `tool_calls` attribute in the source. -/
inductive Message where
  | system (content : String)
  | human (content : String)
  | ai (content : String) (tool_calls : List ToolCall)
  | tool (content : String) (tool_call_id : String) (name : String)
deriving DecidableEq

/-- Every message type has `content`. -/
def Message.content : Message → String
  | .system c => c
  | .human c => c
  | .ai c _ => c
  | .tool c _ _ => c

/-- `hasattr(msg, "tool_calls") and bool(msg.tool_calls)` collapses to:
the tool-call list of an `AIMessage`, `[]` for every other type. -/
def Message.toolCalls : Message → List ToolCall
  | .ai _ tcs => tcs
  | _ => []

/-- `InvestigationState` TypedDict. -/
structure InvestigationState where
  messages : List Message
  incident_id : String
  correlation_id : String
  investigation_status : String
deriving DecidableEq

/-- A partial state update returned by a graph node: messages to append
(the `add_messages` reducer) and an optional overwrite of
`investigation_status`. -/
structure StateUpdate where
  messages : List Message
  investigation_status : Option String
deriving DecidableEq

/-- Applying a node's partial update to the graph state. -/
def applyUpdate (st : InvestigationState) (u : StateUpdate) : InvestigationState :=
  { st with
    messages := st.messages ++ u.messages
    investigation_status := u.investigation_status.getD st.investigation_status }

/-- `should_continue`: routes on `messages[-1]`.  `none` models the
`IndexError` raised by `messages[-1]` on an empty list. -/
def should_continue (state : InvestigationState) : Option String :=
  match state.messages.getLast? with
  | none => none
  | some last => if last.toolCalls.isEmpty then some "end" else some "tools"

/-- `DEFAULT_LLM_RETRY_CONFIG`. -/
def DEFAULT_LLM_RETRY_CONFIG : RetryConfig :=
  { max_attempts := 3, initial_delay := 1, max_delay := 10, exponential_base := 2 }

/-- The agent node built by `create_agent_node`.  `llm msgs` gives the
per-attempt outcome of `model_with_tools.ainvoke(state["messages"])`;
the call is wrapped in `retry_async` with the default LLM retry config.
On success the response is appended; when the retry budget is exhausted
the exception is caught, no message is appended and
`investigation_status` is set to `"failed"`. -/
def agent_node (llm : List Message → Nat → Attempt Message)
    (st : InvestigationState) : StateUpdate :=
  match (retry_async (llm st.messages) DEFAULT_LLM_RETRY_CONFIG).2 with
  | .ok resp => { messages := [resp], investigation_status := none }
  | .error _ => { messages := [], investigation_status := some "failed" }

/-- The tool node built by `create_tool_node_with_logging`: one
`ToolMessage` per tool call of the last message, in emission order.
`toolRun` gives the content of each tool's response (which is the
error string `"Error executing tool: ..."` when execution failed, as
produced by the node's exception handler). -/
def tool_node (toolRun : ToolCall → String) (st : InvestigationState) : StateUpdate :=
  let tcs := match st.messages.getLast? with
    | some last => last.toolCalls
    | none => []
  { messages := tcs.map (fun tc => .tool (toolRun tc) tc.id tc.name)
    investigation_status := none }

/-- Execution of the compiled two-node StateGraph: entry at `agent`;
from `agent` route via `should_continue` (`tools` or end); from `tools`
unconditionally back to `agent`.  `fuel` models LangGraph's recursion
limit; `.error` models the graph machinery raising
(`GraphRecursionError`, or the `IndexError` from routing over an empty
message list). -/
def runGraph (llm : List Message → Nat → Attempt Message)
    (toolRun : ToolCall → String) :
    Nat → InvestigationState → Except String InvestigationState
  | 0, _ => .error "Recursion limit reached"
  | fuel + 1, st =>
      let st1 := applyUpdate st (agent_node llm st)
      match should_continue st1 with
      | none => .error "IndexError: list index out of range"
      | some route =>
          if route = "tools" then
            runGraph llm toolRun fuel (applyUpdate st1 (tool_node toolRun st1))
          else .ok st1

/-! ## Extraction helpers (`extract_root_cause`, `extract_confidence`,
`extract_evidence`, `extract_recommendations`)

The concrete regular expressions of the source are implemented directly
over `List Char`: a scanner tries the pattern at each position from the
left (`re.search`), a literal is compared case-insensitively
(`re.IGNORECASE`), `\s*` is a greedy whitespace run, and the lazy
capture groups stop at the earliest terminator. -/

/-- Python `\s` (whitespace class, ASCII part used by the source). -/
def isWs (c : Char) : Bool :=
  c = ' ' ∨ c = '\t' ∨ c = '\n' ∨ c = '\r' ∨ c = '\x0b' ∨ c = '\x0c'

/-- Python `str.strip()`. -/
def stripChars (s : List Char) : List Char :=
  ((s.dropWhile isWs).reverse.dropWhile isWs).reverse

/-- Substring containment (`needle in haystack`). -/
def containsSeq (needle : List Char) : List Char → Bool
  | [] => needle.isEmpty
  | c :: rest => (List.take needle.length (c :: rest) == needle) || containsSeq needle rest

/-- Leftmost case-insensitive search for `lit` followed by a tail
pattern: at each occurrence of the literal, `tailFn` tries to match the
rest; on failure the scan continues at the next position (regex
backtracking across positions). -/
def scanFor (lit : List Char) (tailFn : List Char → Option β) : List Char → Option β
  | [] => none
  | c :: rest =>
      if (List.take lit.length (c :: rest)).map Char.toLower == lit then
        match tailFn (List.drop lit.length (c :: rest)) with
        | some g => some g
        | none => scanFor lit tailFn rest
      else scanFor lit tailFn rest

/-- Tail of `ROOT CAUSE:\s*(.+?)(?:\n|$)` after the literal: greedy
whitespace, then a lazy non-empty group of non-newline characters up to
the next newline or the end.  When everything after the literal is
whitespace, the greedy `\s*` backtracks so that the group captures a
single non-newline whitespace character (stripping to `""`); if the
suffix is empty or newlines only, there is no match at this position. -/
def rootCauseTail (s : List Char) : Option (List Char) :=
  let rest := s.dropWhile isWs
  if rest.isEmpty then
    if s.any (fun c => c ≠ '\n') then some [' '] else none
  else some (rest.takeWhile (fun c => c ≠ '\n'))

/-- Tail of the fallback patterns
`<literal>(?:alt1|alt2|...)\s+(.+?)(?:\.|$)` after the literal: one of
the alternatives (tried in order), at least one whitespace character,
then a lazy non-empty group up to the first `.` or the end; `.` in the
pattern does not match a newline, so a newline before any period makes
the match fail at this position. -/
def patriTail (alts : List (List Char)) (s : List Char) : Option (List Char) :=
  alts.findSome? fun a =>
    if (List.take a.length s).map Char.toLower == a then
      let after := List.drop a.length s
      let ws := after.takeWhile isWs
      if ws.isEmpty then none
      else
        let rest := after.drop ws.length
        match rest with
        | [] => none
        | c :: _ =>
            if c = '\n' then none
            else
              let g := rest.takeWhile (fun ch => ch ≠ '.' ∧ ch ≠ '\n')
              if (rest.drop g.length).head? = some '\n' then none else some g
    else none

/-- Splitting a character list on a separator character (Python
`str.split(sep)` for a single-character separator). -/
def splitOnChar (sep : Char) (l : List Char) : List (List Char) :=
  l.foldr
    (fun ch acc =>
      match acc with
      | [] => [[ch]]
      | cur :: rest => if ch = sep then [] :: cur :: rest else (ch :: cur) :: rest)
    [[]]

/-- `extract_root_cause`: the explicit `ROOT CAUSE:` marker, then the
three fallback patterns in source order, then the first sentence
(`content.split(".")[0].strip()`); `None` only for empty content. -/
def extract_root_cause (content : String) : Option String :=
  if content = "" then none
  else
    match scanFor "root cause:".data rootCauseTail content.data with
    | some g => some (String.mk (stripChars g))
    | none =>
    match scanFor "root cause ".data
        (patriTail ["is".data, "appears to be".data, "seems to be".data]) content.data with
    | some g => some (String.mk (stripChars g))
    | none =>
    match scanFor "caused by".data (patriTail [[]]) content.data with
    | some g => some (String.mk (stripChars g))
    | none =>
    match scanFor "issue ".data
        (patriTail ["is".data, "appears to be".data]) content.data with
    | some g => some (String.mk (stripChars g))
    | none => some (String.mk (stripChars ((splitOnChar '.' content.data).headD [])))

/-- The three confidence levels; the alternation
`(high|medium|low)` of the `CONFIDENCE:` pattern can only produce
these. -/
inductive Confidence where
  | high
  | medium
  | low
deriving DecidableEq

/-- `match.group(1).lower()` for the confidence alternation. -/
def Confidence.toStr : Confidence → String
  | .high => "high"
  | .medium => "medium"
  | .low => "low"

/-- Tail of `CONFIDENCE:\s*(high|medium|low)` after the literal:
greedy whitespace (no shorter run can start an alternative, since the
alternatives start with a letter), then one of the alternatives. -/
def confidenceTail (s : List Char) : Option Confidence :=
  let rest := (s.dropWhile isWs).map Char.toLower
  if List.take 4 rest == "high".data then some .high
  else if List.take 6 rest == "medium".data then some .medium
  else if List.take 3 rest == "low".data then some .low
  else none

/-- `high_indicators` of `extract_confidence`. -/
def highIndicators : List (List Char) :=
  ["definitely".data, "certainly".data, "clearly".data, "obviously".data,
   "high confidence".data]

/-- `low_indicators` of `extract_confidence`. -/
def lowIndicators : List (List Char) :=
  ["possibly".data, "maybe".data, "might".data, "could be".data,
   "low confidence".data, "uncertain".data]

/-- `extract_confidence`: explicit `CONFIDENCE:` marker, else keyword
scan (all high indicators before all low ones), else `medium`. -/
def extract_confidence (content : String) : Confidence :=
  if content = "" then .medium
  else
    match scanFor "confidence:".data confidenceTail content.data with
    | some c => c
    | none =>
        let cl := content.data.map Char.toLower
        if highIndicators.any (fun k => containsSeq k cl) then .high
        else if lowIndicators.any (fun k => containsSeq k cl) then .low
        else .medium

/-- Terminator of the `EVIDENCE` capture:
`(?:\n\n|\n[A-Z]+:|$)`. -/
def evTermAt : List Char → Bool
  | [] => true
  | '\n' :: '\n' :: _ => true
  | '\n' :: t =>
      let caps := t.takeWhile (fun c => 'A' ≤ c ∧ c ≤ 'Z')
      (!caps.isEmpty) && ((t.drop caps.length).head? == some ':')
  | _ => false

/-- Lazy growth of a capture group until `term` holds of the rest
(always terminates at the end of the input, where `$` matches). -/
def captureUntil (term : List Char → Bool) : List Char → List Char → List Char
  | acc, t =>
      if term t then acc.reverse
      else
        match t with
        | [] => acc.reverse
        | c :: t' => captureUntil term (c :: acc) t'

/-- Tail of `EVIDENCE:\s*(.+?)(?:\n\n|\n[A-Z]+:|$)` (DOTALL): greedy
whitespace, then a lazy non-empty group (newlines included) up to the
earliest terminator.  A whitespace-only non-empty suffix still matches
via backtracking, with a group that strips to `""`. -/
def evidenceTail (s : List Char) : Option (List Char) :=
  let rest := s.dropWhile isWs
  if rest.isEmpty then
    if s.isEmpty then none else some [' ']
  else
    match rest with
    | [] => none
    | c :: t => some (captureUntil evTermAt [c] t)

/-- An item of the evidence list built by `extract_evidence`
(`args` is absent on `agent_analysis` items). -/
structure EvidenceItem where
  source : String
  args : Option (List (String × String))
  content : String
deriving DecidableEq

/-- For a tool call at position `i`, the content of the first following
message with truthy content, else `"No response"`. -/
def contentAfter (rest : List Message) : String :=
  match rest.find? (fun m => m.content != "") with
  | some m => m.content
  | none => "No response"

/-- The tool-call half of `extract_evidence`: each tool call of each
message is paired with the first later message that has content. -/
def evidenceToolPart : List Message → List EvidenceItem
  | [] => []
  | m :: rest =>
      m.toolCalls.map
        (fun tc => { source := tc.name, args := some tc.args, content := contentAfter rest })
      ++ evidenceToolPart rest

/-- `extract_evidence`: tool-call/response pairs, then one
`agent_analysis` item per message whose content matches the
`EVIDENCE:` pattern. -/
def extract_evidence (msgs : List Message) : List EvidenceItem :=
  evidenceToolPart msgs ++
    msgs.filterMap (fun m =>
      if m.content != "" then
        (scanFor "evidence:".data evidenceTail m.content.data).map
          (fun g => { source := "agent_analysis", args := none,
                      content := String.mk (stripChars g) })
      else none)

/-- Terminator of the `RECOMMENDATIONS` capture: `(?:\n\n|$)`. -/
def recTermAt : List Char → Bool
  | [] => true
  | '\n' :: '\n' :: _ => true
  | _ => false

/-- Tail of `RECOMMENDATIONS?:\s*(.+?)(?:\n\n|$)` (DOTALL) after the
literal `recommendation`: the optional `s` (greedy), the colon, greedy
whitespace, then a lazy non-empty group up to the first blank line or
the end. -/
def recsAfterLit (s : List Char) : Option (List Char) :=
  let tail1 : List Char → Option (List Char) := fun r =>
    let rest := r.dropWhile isWs
    if rest.isEmpty then
      if r.isEmpty then none else some [' ']
    else
      match rest with
      | [] => none
      | c :: t => some (captureUntil recTermAt [c] t)
  match s with
  | c :: ':' :: r => if c.toLower = 's' then tail1 r else none
  | ':' :: r => tail1 r
  | _ => none

/-- The bullet part of the split pattern
`\n[-•*]\s*|\n\d+\.\s*|\n`: a leading `-`, `•` or `*` or a leading
`digits.` is consumed together with the following whitespace. -/
def stripBullet (l : List Char) : List Char :=
  match l with
  | '-' :: t => t.dropWhile isWs
  | '•' :: t => t.dropWhile isWs
  | '*' :: t => t.dropWhile isWs
  | _ =>
      let ds := l.takeWhile Char.isDigit
      if (!ds.isEmpty) && ((l.drop ds.length).head? == some '.') then
        ((l.drop ds.length).drop 1).dropWhile isWs
      else l

/-- `extract_recommendations`: the `RECOMMENDATIONS?:` section, split
into lines with bullet markers removed, keeping stripped lines longer
than 10 characters. -/
def extract_recommendations (content : String) : List String :=
  if content = "" then []
  else
    match scanFor "recommendation".data recsAfterLit content.data with
    | none => []
    | some g =>
        ((splitOnChar '\n' (stripChars g)).map (fun line => stripChars (stripBullet line))).foldr
          (fun line acc => if line.length > 10 then String.mk line :: acc else acc) []

/-! ## Investigation runner (`investigate_incident`) -/

/-- `INVESTIGATION_SYSTEM_PROMPT` (verbatim). -/
def INVESTIGATION_SYSTEM_PROMPT : String :=
  "You are an expert SRE assistant investigating production incidents.

When given an incident description, follow this process:
1. Analyze the description to understand the problem
2. Use available Kubernetes tools to gather evidence:
   - Get pod details and status
   - Retrieve pod logs
   - Check resource usage and limits
   - View recent events
3. Correlate the evidence to identify patterns
4. Determine the root cause with confidence level
5. Provide actionable recommendations

Always explain your reasoning and cite specific evidence from the tools.

When you have gathered sufficient evidence and determined the root cause, provide your final analysis in this format:

ROOT CAUSE: [Your determined root cause]
CONFIDENCE: [high/medium/low]
EVIDENCE: [Key evidence that supports your conclusion]
RECOMMENDATIONS: [Actionable recommendations]

Be thorough but concise. Focus on the most relevant information."

/-- The initial graph state built by `investigate_incident`. -/
def initialState (incident_id correlation_id description : String) : InvestigationState :=
  { messages := [.system INVESTIGATION_SYSTEM_PROMPT, .human description]
    incident_id := incident_id
    correlation_id := correlation_id
    investigation_status := "in_progress" }

/-- A `{tool, args, timestamp}` record of the result's `tool_calls`
list (the wall-clock timestamp is not modelled). -/
structure ToolCallRecord where
  tool : String
  args : List (String × String)
deriving DecidableEq

/-- The result dictionary returned by `investigate_incident`.  `error`
is `none` when the key is absent (the completed result has no `error`
key); `root_cause`, `confidence` and `reasoning` are `none` when the
stored value is Python `None`.  `duration_seconds` (wall clock) is not
modelled. -/
structure InvestigationResult where
  root_cause : Option String
  confidence : Option String
  evidence : List EvidenceItem
  reasoning : Option String
  recommendations : List String
  tool_calls : List ToolCallRecord
  status : String
  error : Option String
  correlation_id : String
deriving DecidableEq

/-- The walk over all messages collecting `{tool, args}` for every
`AI.tool_calls` entry. -/
def collectToolCalls (msgs : List Message) : List ToolCallRecord :=
  (msgs.map (fun m => m.toolCalls.map (fun tc => ⟨tc.name, tc.args⟩))).flatten

/-- The successful `investigation_result` dictionary. -/
def mkCompletedResult (final_content : String) (msgs : List Message)
    (correlation_id : String) : InvestigationResult :=
  { root_cause := extract_root_cause final_content
    confidence := some (extract_confidence final_content).toStr
    evidence := extract_evidence msgs
    reasoning := some final_content
    recommendations := extract_recommendations final_content
    tool_calls := collectToolCalls msgs
    status := "completed"
    error := none
    correlation_id := correlation_id }

/-- The `error_result` dictionary built by the exception handler of
`investigate_incident`: every partial-result field is a fresh empty
value. -/
def mkErrorResult (e : String) (correlation_id : String) : InvestigationResult :=
  { root_cause := none
    confidence := none
    evidence := []
    reasoning := none
    recommendations := []
    tool_calls := []
    status := "failed"
    error := some e
    correlation_id := correlation_id }

/-- `if update_callback: await update_callback(...)`; the callback may
itself raise. -/
def cbCall (cb : Option (String → Except String Unit)) (s : String) : Except String Unit :=
  match cb with
  | none => .ok ()
  | some f => f s

/-- Placeholder for `generate_correlation_id()` (a fresh `uuid4`). -/
def mintedCorrelationId : String := "minted-correlation-id"

/-- `investigate_incident(agent, incident_id, description,
update_callback, correlation_id)`.  `agentAttempts st i` is the outcome
of the `i`-th attempt of `agent.ainvoke(initial_state)` (wrapped in
`retry_async` with the default LLM retry config).  A `.error` return
models an exception escaping the function (only possible when the
callback raises inside the exception handler); a `.ok` return carries
the result dictionary. -/
def investigate_incident (agentAttempts : InvestigationState → Nat → Attempt InvestigationState)
    (cb : Option (String → Except String Unit)) (incident_id description : String)
    (correlation_id : Option String) : Except String InvestigationResult :=
  let corrId := correlation_id.getD mintedCorrelationId
  let initial := initialState incident_id corrId description
  let attempt : Except String InvestigationResult :=
    match cbCall cb "investigating" with
    | .error e => .error e
    | .ok _ =>
        match (retry_async (agentAttempts initial) DEFAULT_LLM_RETRY_CONFIG).2 with
        | .error e => .error e
        | .ok finalState =>
            match finalState.messages.reverse.find? (fun m => m.content != "") with
            | none => .error "No response from agent"
            | some final_message =>
                let res := mkCompletedResult final_message.content finalState.messages corrId
                match cbCall cb "completed" with
                | .error e => .error e
                | .ok _ => .ok res
  match attempt with
  | .ok r => .ok r
  | .error e =>
      match cbCall cb "failed" with
      | .error e2 => .error e2
      | .ok _ => .ok (mkErrorResult e corrId)

/-! ## Incident store (`incident_repository.py`, `models/incidents.py`) -/

/-- Dynamic values stored in step-detail dictionaries
(`details: Dict[str, Any]`), restricted to the kinds the repository
actually stores. -/
inductive DV where
  | str (s : String)
  | nat (n : Nat)
  | bool (b : Bool)
deriving DecidableEq

/-- Rendering a detail value when it is assigned to a string field
(`incident.error_message = details["error"]`; in every code path the
stored value is a string). -/
def DV.render : DV → String
  | .str s => s
  | .nat n => toString n
  | .bool b => toString b

/-- `InvestigationStep` (pydantic model); `timestamp` is an abstract
clock tick. -/
structure InvestigationStep where
  step_name : String
  timestamp : Nat
  status : String
  details : List (String × DV)
deriving DecidableEq

/-- The keys the repository stores into `incident.evidence`
(`Dict[str, Any]`); `none` means the key is absent. -/
structure EvidenceMap where
  tool_calls : Option (List ToolCallRecord)
  collected_evidence : Option (List EvidenceItem)
  reasoning : Option String
  recommendations : Option (List String)
  partial_reasoning : Option String
  partial_root_cause : Option String
deriving DecidableEq

/-- The empty `evidence` dictionary. -/
def EvidenceMap.empty : EvidenceMap :=
  ⟨none, none, none, none, none, none⟩

/-- Dict truthiness of the partial-evidence dictionary. -/
def EvidenceMap.nonEmpty (m : EvidenceMap) : Bool :=
  m.tool_calls.isSome || m.collected_evidence.isSome || m.reasoning.isSome ||
    m.recommendations.isSome || m.partial_reasoning.isSome || m.partial_root_cause.isSome

/-- The `Incident` pydantic model.  `status` is a string (assignments
in the repository are raw strings and pydantic does not validate on
assignment); timestamps are abstract clock ticks. -/
structure Incident where
  id : String
  description : String
  status : String
  created_at : Nat
  completed_at : Option Nat
  evidence : EvidenceMap
  extracted_entities : List (String × DV)
  suggested_root_cause : Option String
  confidence_score : Option String
  investigation_steps : List InvestigationStep
  error_message : Option String
deriving DecidableEq

/-- A throwaway incident used only as a `getD` fallback. -/
def dummyIncident : Incident :=
  { id := "", description := "", status := "pending", created_at := 0,
    completed_at := none, evidence := EvidenceMap.empty, extracted_entities := [],
    suggested_root_cause := none, confidence_score := none,
    investigation_steps := [], error_message := none }

/-- The in-memory store `self._incidents` (`Dict[UUID, Incident]`);
writes shadow earlier entries. -/
abbrev Repo := List (String × Incident)

/-- `self._incidents[incident.id] = incident`. -/
def Repo.store (repo : Repo) (id : String) (inc : Incident) : Repo :=
  (id, inc) :: repo

/-- `get_by_id`: dictionary lookup. -/
def get_by_id (repo : Repo) (id : String) : Option Incident :=
  (repo.find? (fun p => p.1 == id)).map Prod.snd

/-- `create_incident_sync(description)`: a pending incident with the
initial `incident_created` step.  In the source the record is stored and
the step is then appended to the same mutable object; functionally the
stored and returned incident both carry the step.  The fresh `uuid4`
and `utcnow` are the `id` and `now` parameters. -/
def create_incident_sync (repo : Repo) (description : String) (id : String) (now : Nat) :
    Incident × Repo :=
  let inc : Incident :=
    { id := id, description := description, status := "pending", created_at := now,
      completed_at := none, evidence := EvidenceMap.empty, extracted_entities := [],
      suggested_root_cause := none, confidence_score := none,
      investigation_steps :=
        [⟨"incident_created", now, "completed", [("description", .str description)]⟩],
      error_message := none }
  (inc, repo.store id inc)

/-- `details.get("error")` under `details and "error" in details`. -/
def detailsError (details : Option (List (String × DV))) : Option DV :=
  match details with
  | none => none
  | some l => l.lookup "error"

/-- The field updates of `update_status`.  The source assigns the new
status first and then stamps `error_message`/`completed_at`; the order
is observationally irrelevant, so the status assignment is written
outermost here.  No transition-legality check is performed. -/
def applyStatusUpdate (inc : Incident) (status : String)
    (details : Option (List (String × DV))) (now : Nat) : Incident :=
  let inc1 :=
    if status = "failed" ∧ (detailsError details).isSome then
      { inc with error_message := (detailsError details).map DV.render,
                 completed_at := some now }
    else if status = "completed" then { inc with completed_at := some now }
    else inc
  { inc1 with status := status }

/-- `update_status(incident_id, status, details)`; a missing id is a
no-op. -/
def update_status (repo : Repo) (incident_id status : String)
    (details : Option (List (String × DV))) (now : Nat) : Repo :=
  match get_by_id repo incident_id with
  | none => repo
  | some inc => repo.store incident_id (applyStatusUpdate inc status details now)

/-- The `result["status"] == "completed"` branch of
`_investigate_incident`. -/
def completedUpdate (inc : Incident) (r : InvestigationResult) (now : Nat) : Incident :=
  { inc with
    status := "completed"
    suggested_root_cause := r.root_cause
    confidence_score := r.confidence
    completed_at := some now
    evidence :=
      { tool_calls := some r.tool_calls
        reasoning := r.reasoning
        recommendations := some r.recommendations
        collected_evidence := if r.evidence.isEmpty then none else some r.evidence
        partial_reasoning := none
        partial_root_cause := none }
    investigation_steps := inc.investigation_steps ++
      [⟨"investigation_completed", now, "completed",
        [("root_cause", .str ((r.root_cause).getD "")),
         ("confidence", .str ((r.confidence).getD "")),
         ("tool_calls_count", .nat r.tool_calls.length)]⟩] }

/-- Python truthiness of an optional string result field. -/
def truthyOptStr : Option String → Bool
  | some s => s ≠ ""
  | none => false

/-- The failure branch of `_investigate_incident`: sets
`status`/`error_message`/`completed_at`, preserves whatever partial
results the runner's result dictionary contains, and appends the
`investigation_failed` step.  (The runner's exception handler always
hands over empty `tool_calls`/`evidence`, so the preservation branches
only fire on non-empty values.) -/
def failedUpdate (inc : Incident) (r : InvestigationResult) (now : Nat) : Incident :=
  let pe : EvidenceMap :=
    { tool_calls := if r.tool_calls.isEmpty then none else some r.tool_calls
      collected_evidence := if r.evidence.isEmpty then none else some r.evidence
      partial_reasoning := if truthyOptStr r.reasoning then r.reasoning else none
      partial_root_cause := if truthyOptStr r.root_cause then r.root_cause else none
      reasoning := none
      recommendations := none }
  let withRc :=
    if truthyOptStr r.root_cause then
      { inc with suggested_root_cause := r.root_cause, confidence_score := r.confidence }
    else inc
  let withEv := if pe.nonEmpty then { withRc with evidence := pe } else withRc
  { withEv with
    status := "failed"
    error_message := some ((r.error).getD "Unknown error")
    completed_at := some now
    investigation_steps := withEv.investigation_steps ++
      [⟨"investigation_failed", now, "failed",
        [("error", .str ((r.error).getD "Unknown error")),
         ("partial_results_preserved", .bool pe.nonEmpty),
         ("tool_calls_count", .nat r.tool_calls.length),
         ("evidence_count", .nat r.evidence.length)]⟩] }

/-- `_investigate_incident(incident, mcp_tools, llm_config)`.
`agentCreation` is the outcome of `create_investigation_agent`;
`runResult` is the return of `investigate_incident` run with the local
`update_callback` (which appends the `investigation_progress` step on
the `investigating` event and never raises; a `.error` run result models
an exception escaping the runner and is kept for faithfulness).  Returns
the incident as mutated so far together with the escaping exception, if
any. -/
def _investigate_incident (inc : Incident) (agentCreation : Except String Unit)
    (toolCount : Nat) (runResult : Except String InvestigationResult) (now : Nat) :
    Incident × Option String :=
  let inc1 : Incident :=
    { inc with
      status := "in_progress"
      investigation_steps := inc.investigation_steps ++
        [⟨"investigation_started", now, "started", [("timestamp", .nat now)]⟩] }
  match agentCreation with
  | .error e => (inc1, some e)
  | .ok _ =>
      let inc2 : Incident :=
        { inc1 with investigation_steps := inc1.investigation_steps ++
            [⟨"agent_created", now, "completed", [("tool_count", .nat toolCount)]⟩] }
      let inc3 : Incident :=
        { inc2 with investigation_steps := inc2.investigation_steps ++
            [⟨"investigation_progress", now, "started", []⟩] }
      match runResult with
      | .error e => (inc3, some e)
      | .ok r =>
          if r.status = "completed" then (completedUpdate inc3 r now, none)
          else (failedUpdate inc3 r now, none)

/-- `investigate_incident_async`: looks the incident up (a missing id is
logged and ignored), runs `_investigate_incident`, and on an escaping
exception marks the (already partially mutated) incident failed with the
exception message, a stamped `completed_at` and an
`investigation_failed` step. -/
def investigate_incident_async (repo : Repo) (id : String)
    (agentCreation : Except String Unit) (toolCount : Nat)
    (runResult : Except String InvestigationResult) (now : Nat) : Repo :=
  match get_by_id repo id with
  | none => repo
  | some inc =>
      let res := _investigate_incident inc agentCreation toolCount runResult now
      match res.2 with
      | none => repo.store id res.1
      | some e =>
          repo.store id
            { res.1 with
              status := "failed"
              error_message := some e
              completed_at := some now
              investigation_steps := res.1.investigation_steps ++
                [⟨"investigation_failed", now, "failed", [("error", .str e)]⟩] }

/-- The data-model invariant of the claim: a terminal status has a
`completed_at` stamp, and a failed status has a non-empty error
message. -/
def invariantOk (i : Incident) : Prop :=
  ((i.status = "completed" ∨ i.status = "failed") → i.completed_at ≠ none) ∧
    (i.status = "failed" → (i.error_message ≠ none ∧ i.error_message ≠ some ""))

instance (i : Incident) : Decidable (invariantOk i) := by
  unfold invariantOk
  infer_instance

/-! ## MCP tool registry (`mcp_tool_manager.py`) -/

/-- A discovered LangChain-compatible tool (only the name is relevant
here). -/
structure MCPTool where
  name : String
deriving DecidableEq

/-- The mutable fields of `MCPToolManager`: the configured server
names, the constructed multiplexed client (modelled by the config it
was built from), the cached tool list (`None` before discovery) and the
initialized flag. -/
structure MCPManagerState where
  config : List String
  client : Option (List String)
  tools : Option (List MCPTool)
  initialized : Bool
deriving DecidableEq

/-- `MCPToolManager.initialize()`.  `discover` is the outcome of
`MultiServerMCPClient.get_tools()` against the configured servers (the
constructor itself does not connect).  Returns the new manager state
and either the returned value of the method (`self._tools`, possibly
`None` on the early-return path) or the re-raised exception. -/
def MCPToolManager.initializeRegistry (st : MCPManagerState)
    (discover : Except String (List MCPTool)) :
    MCPManagerState × Except String (Option (List MCPTool)) :=
  if st.initialized then (st, .ok st.tools)
  else if st.config.isEmpty then
    ({ st with tools := some [], initialized := true }, .ok (some []))
  else
    match discover with
    | .ok ts =>
        ({ st with client := some st.config, tools := some ts, initialized := true },
         .ok (some ts))
    | .error e =>
        ({ st with client := some st.config, tools := some [], initialized := true },
         .error e)

/-- `MCPToolManager.get_tools()`: initializes first if needed
(exceptions propagate), then returns `self._tools` or `[]`. -/
def MCPToolManager.get_tools (st : MCPManagerState)
    (discover : Except String (List MCPTool)) :
    MCPManagerState × Except String (List MCPTool) :=
  if st.initialized then (st, .ok (st.tools.getD []))
  else
    match MCPToolManager.initializeRegistry st discover with
    | (st', .error e) => (st', .error e)
    | (st', .ok _) => (st', .ok (st'.tools.getD []))

/-- `MCPToolManager.cleanup()`: when a client exists, the `finally`
block always clears the client, the tools and the initialized flag
(whatever `__aexit__` did); with no client the method does nothing. -/
def MCPToolManager.cleanup (st : MCPManagerState) : MCPManagerState :=
  if st.client.isSome then { st with client := none, tools := none, initialized := false }
  else st

/-- `MCPToolManager.is_initialized()`. -/
def MCPToolManager.is_initialized (st : MCPManagerState) : Bool :=
  st.initialized

/-! ## Concrete scenarios used by the claim theorems -/

/-- C1 scenario: an LLM that first requests one `get_pod_details` call
and then concludes. -/
def c1_llm : List Message → Nat → Attempt Message := fun msgs _ =>
  if msgs.length ≤ 2 then
    .success (.ai "" [⟨"call-1", "get_pod_details", [("pod", "nginx-abc")]⟩])
  else .success (.ai "ROOT CAUSE: OOM\nCONFIDENCE: high" [])

/-- C1 scenario: the tool responds normally. -/
def c1_toolRun : ToolCall → String := fun _ => "CrashLoopBackOff restarts=5"

/-- C1 scenario incident description. -/
def c1_desc : String := "Pod nginx-abc is in CrashLoopBackOff"

/-- C1 scenario: the agent graph as seen by the outer retry wrapper. -/
def c1_agentAttempts : InvestigationState → Nat → Attempt InvestigationState :=
  fun st _ =>
    match runGraph c1_llm c1_toolRun 25 st with
    | .ok s => .success s
    | .error e => .failure e true

/-- C1 scenario: an update callback that raises while persisting the
completed result. -/
def c1_cb : String → Except String Unit := fun s =>
  if s = "completed" then .error "DB write failed" else .ok ()

/-- C3 scenario: every LLM invocation raises, on every retry attempt. -/
def c3_llm : List Message → Nat → Attempt Message := fun _ _ =>
  .failure "LLM API error" true

/-- C3 scenario: tools are never reached. -/
def c3_toolRun : ToolCall → String := fun _ => ""

/-- C3 scenario: the agent graph as seen by the outer retry wrapper. -/
def c3_agentAttempts : InvestigationState → Nat → Attempt InvestigationState :=
  fun st _ =>
    match runGraph c3_llm c3_toolRun 25 st with
    | .ok s => .success s
    | .error e => .failure e true

/-- C3 scenario: the final graph state — the message log is untouched
and the agent node has set the failure flag. -/
def c3_finalState : InvestigationState :=
  { initialState "inc-2" "corr-2" "Pod is crashing" with investigation_status := "failed" }

/-- C4 counterexample configuration: `initial_delay` above
`max_delay`. -/
def c4cex_cfg : RetryConfig :=
  { max_attempts := 2, initial_delay := 20, max_delay := 10, exponential_base := 2 }

/-- C4 counterexample operation: fails once, then succeeds. -/
def c4cex_attempts : Nat → Attempt Nat := fun i =>
  if i = 1 then .failure "glitch" true else .success 7

/-- C4 witness configuration (the spec defaults). -/
def c4w_cfg : RetryConfig :=
  { max_attempts := 3, initial_delay := 1, max_delay := 10, exponential_base := 2 }

/-- C4 witness operation: succeeds on the third attempt. -/
def c4w_attempts : Nat → Attempt Nat := fun i =>
  if i < 3 then .failure "timeout" true else .success 42

/-- C4 witness error messages for the all-fail run. -/
def c4w_errs : Nat → String := fun i => if i = 3 then "final" else "transient"

/-- C4 witness operation: every attempt fails retryably. -/
def c4wf_attempts : Nat → Attempt Nat := fun i => .failure (c4w_errs i) true

/-- C5/C10 scenario: a fresh manager configured with two servers. -/
def c5_state : MCPManagerState :=
  { config := ["kubernetes", "prometheus"], client := none, tools := none,
    initialized := false }

/-- C5 witness state: a fresh manager with one server. -/
def c5w_state : MCPManagerState :=
  { config := ["kubernetes"], client := none, tools := none, initialized := false }

/-- C2 counterexample: an incident already completed. -/
def c2_completedInc : Incident :=
  { id := "i1", description := "API latency spike", status := "completed",
    created_at := 3, completed_at := some 9, evidence := EvidenceMap.empty,
    extracted_entities := [], suggested_root_cause := some "cache stampede",
    confidence_score := some "high",
    investigation_steps := [⟨"incident_created", 3, "completed", []⟩],
    error_message := none }

/-- C2 counterexample store. -/
def c2_repo0 : Repo := [("i1", c2_completedInc)]

/-- C2 counterexample: the store after pushing the completed incident
back to `in_progress`. -/
def c2_repo1 : Repo := update_status c2_repo0 "i1" "in_progress" none 11

/-- C6 counterexample: store with one freshly created incident. -/
def c6_repo0 : Repo := (create_incident_sync [] "database is down" "id-1" 0).2

/-- C6 counterexample: the incident is marked failed without error
details. -/
def c6_repo1 : Repo := update_status c6_repo0 "id-1" "failed" none 1

/-- C6 witness store. -/
def c6w_repo : Repo := (create_incident_sync [] "pod crashloop" "id-2" 0).2

/-- C6 witness: the incident after a failed background investigation
run (the runner returned its `error_result`). -/
def c6w_inc : Incident :=
  (get_by_id
    (investigate_incident_async c6w_repo "id-2" (.ok ()) 2
      (.ok (mkErrorResult "LLM down" "corr-9")) 5) "id-2").getD dummyIncident

/-- C7 counterexample: the agent answers with the single character
`"."`. -/
def c7_agentAttempts : InvestigationState → Nat → Attempt InvestigationState :=
  fun st _ => .success { st with messages := st.messages ++ [.ai "." []] }

/-- C7 witness: a completed run (reusing the same degenerate agent on a
different incident). -/
def c7w_result : InvestigationResult :=
  match investigate_incident c7_agentAttempts none "inc-4" "Node not ready" (some "corr-4") with
  | .ok r => r
  | .error _ => mkErrorResult "" ""

/-- C8 witness: last message with one tool call. -/
def c8_stA : InvestigationState :=
  { messages := [.ai "checking" [⟨"call-1", "get_pod_details", [("pod", "p1")]⟩]],
    incident_id := "i", correlation_id := "c", investigation_status := "in_progress" }

/-- C8 witness: last message with no tool calls. -/
def c8_stB : InvestigationState :=
  { messages := [.ai "ROOT CAUSE: disk full" []],
    incident_id := "i", correlation_id := "c", investigation_status := "in_progress" }

/-! ## Helper lemmas -/

/-- A store followed by a lookup of the same id yields the stored
incident. -/
lemma get_by_id_store (repo : Repo) (id : String) (inc : Incident) :
    get_by_id (repo.store id inc) id = some inc := by
  simp [get_by_id, Repo.store]

/-- The confidence alternation can only produce the three levels. -/
lemma toStr_mem (c : Confidence) :
    c.toStr = "high" ∨ c.toStr = "medium" ∨ c.toStr = "low" := by
  cases c <;> simp [Confidence.toStr]

/-- `extract_root_cause` returns a string for every non-empty input
(the first-sentence fallback always fires). -/
lemma extract_root_cause_isSome (c : String) (hc : c ≠ "") :
    extract_root_cause c ≠ none := by
  unfold extract_root_cause
  rw [if_neg hc]
  repeat' split
  all_goals simp

/-- `initialize` on an uninitialized manager with servers configured
and failing discovery: state fully characterized, exception re-raised. -/
lemma initialize_error_case (st : MCPManagerState) (e : String)
    (h1 : st.initialized = false) (h2 : st.config ≠ []) :
    MCPToolManager.initializeRegistry st (.error e) =
      ({ st with client := some st.config, tools := some [], initialized := true },
       .error e) := by
  unfold MCPToolManager.initializeRegistry
  rw [h1]
  simp [h2]

/-- The iterated delay update equals the capped exponential formula of
the spec, for genuine backoff configurations. -/
lemma nextDelay_iterate (base maxDelay : ℚ) (hb : 1 ≤ base) :
    ∀ (i : ℕ) (d : ℚ), 0 ≤ d → d ≤ maxDelay →
      (nextDelay base maxDelay)^[i] d = min (d * base ^ i) maxDelay := by
  intro i
  induction i with
  | zero => intro d _ hdm; simp [min_eq_left hdm]
  | succ n ih =>
      intro d h0 hdm
      have hb0 : (0 : ℚ) ≤ base := le_trans zero_le_one hb
      have hm0 : (0 : ℚ) ≤ maxDelay := le_trans h0 hdm
      rw [Function.iterate_succ_apply]
      have h0' : 0 ≤ nextDelay base maxDelay d :=
        le_min (mul_nonneg h0 hb0) hm0
      have hdm' : nextDelay base maxDelay d ≤ maxDelay := min_le_right _ _
      rw [ih _ h0' hdm']
      unfold nextDelay
      rcases le_total (d * base) maxDelay with hle | hge
      · rw [min_eq_left hle, pow_succ]
        ring_nf
      · rw [min_eq_right hge]
        have hpow : (1 : ℚ) ≤ base ^ n := one_le_pow₀ hb
        have h1 : maxDelay ≤ maxDelay * base ^ n :=
          le_mul_of_one_le_right hm0 hpow
        have hdb0 : (0 : ℚ) ≤ d * base := le_trans hm0 hge
        have h2 : maxDelay ≤ d * base ^ (n + 1) := by
          calc maxDelay ≤ d * base := hge
            _ ≤ d * base * base ^ n := le_mul_of_one_le_right hdb0 hpow
            _ = d * base ^ (n + 1) := by rw [pow_succ]; ring
        rw [min_eq_right h1, min_eq_right h2]

/-- `retryGo` with `k` retryable failures and then a success records
exactly the iterated delays. -/
lemma retryGo_success (attempts : Nat → Attempt α) (base maxDelay : ℚ) (v : α) :
    ∀ (k attempt rem : Nat) (d : ℚ) (acc : List ℚ),
      (∀ j, j < k → ∃ m, attempts (attempt + j) = .failure m true) →
      attempts (attempt + k) = .success v →
      k < rem →
      retryGo attempts base maxDelay rem attempt d acc =
        (acc.reverse ++ (List.range k).map (fun i => (nextDelay base maxDelay)^[i] d),
         .ok v) := by
  intro k
  induction k with
  | zero =>
      intro attempt rem d acc _ hsucc hk
      obtain ⟨r, rfl⟩ : ∃ r, rem = r + 1 := ⟨rem - 1, by omega⟩
      rw [Nat.add_zero] at hsucc
      unfold retryGo
      rw [hsucc]
      simp
  | succ n ih =>
      intro attempt rem d acc hfail hsucc hk
      obtain ⟨m, hm⟩ := hfail 0 (by omega)
      rw [Nat.add_zero] at hm
      obtain ⟨r, rfl⟩ : ∃ r, rem = r + 1 := ⟨rem - 1, by omega⟩
      unfold retryGo
      rw [hm]
      have hr : ¬(r = 0) := by omega
      simp only [if_true, hr, if_false, ite_true, ite_false, if_neg hr]
      have hfail' : ∀ j, j < n → ∃ m', attempts (attempt + 1 + j) = .failure m' true := by
        intro j hj
        obtain ⟨m', hm'⟩ := hfail (j + 1) (by omega)
        exact ⟨m', by rwa [show attempt + (j + 1) = attempt + 1 + j by omega] at hm'⟩
      have hsucc' : attempts (attempt + 1 + n) = .success v := by
        rwa [show attempt + (n + 1) = attempt + 1 + n by omega] at hsucc
      rw [ih (attempt + 1) r (nextDelay base maxDelay d) (d :: acc) hfail' hsucc' (by omega)]
      rw [List.reverse_cons, List.append_assoc]
      congr 1
      have hrange : (List.range (n + 1)).map (fun i => (nextDelay base maxDelay)^[i] d) =
          d :: (List.range n).map (fun i => (nextDelay base maxDelay)^[i]
            (nextDelay base maxDelay d)) := by
        rw [List.range_succ_eq_map, List.map_cons, List.map_map]
        refine congrArg₂ _ rfl (congrArg₂ _ (funext fun i => ?_) rfl)
        simp [Function.comp, Function.iterate_succ_apply]
      rw [hrange]
      rfl

/-- `retryGo` with every attempt failing retryably sleeps after each
attempt but the last, then surfaces the last failure. -/
lemma retryGo_allfail (attempts : Nat → Attempt α) (base maxDelay : ℚ) (errs : Nat → String) :
    ∀ (rem attempt : Nat) (d : ℚ) (acc : List ℚ),
      1 ≤ rem →
      (∀ j, j < rem → attempts (attempt + j) = .failure (errs (attempt + j)) true) →
      retryGo attempts base maxDelay rem attempt d acc =
        (acc.reverse ++ (List.range (rem - 1)).map (fun i => (nextDelay base maxDelay)^[i] d),
         .error (errs (attempt + (rem - 1)))) := by
  intro rem
  induction rem with
  | zero => intro attempt d acc h1; omega
  | succ r ih =>
      intro attempt d acc _ hfail
      have h0 := hfail 0 (by omega)
      rw [Nat.add_zero] at h0
      unfold retryGo
      rw [h0]
      rcases Nat.eq_zero_or_pos r with hr | hr
      · subst hr
        simp
      · have hrne : ¬(r = 0) := by omega
        simp only [if_true, ite_true, if_neg hrne]
        have hfail' : ∀ j, j < r →
            attempts (attempt + 1 + j) = .failure (errs (attempt + 1 + j)) true := by
          intro j hj
          have := hfail (j + 1) (by omega)
          rwa [show attempt + (j + 1) = attempt + 1 + j by omega] at this
        rw [ih (attempt + 1) (nextDelay base maxDelay d) (d :: acc) (by omega) hfail']
        obtain ⟨r', rfl⟩ : ∃ r', r = r' + 1 := ⟨r - 1, by omega⟩
        rw [List.reverse_cons, List.append_assoc]
        have hidx : attempt + 1 + (r' + 1 - 1) = attempt + (r' + 1 + 1 - 1) := by omega
        rw [hidx]
        congr 2
        have hrange : (List.range (r' + 1 + 1 - 1)).map
            (fun i => (nextDelay base maxDelay)^[i] d) =
            d :: (List.range (r' + 1 - 1)).map (fun i => (nextDelay base maxDelay)^[i]
              (nextDelay base maxDelay d)) := by
          rw [show r' + 1 + 1 - 1 = (r' + 1 - 1) + 1 by omega]
          rw [List.range_succ_eq_map, List.map_cons, List.map_map]
          refine congrArg₂ _ rfl (congrArg₂ _ (funext fun i => ?_) rfl)
          simp [Function.comp, Function.iterate_succ_apply]
        rw [hrange]
        rfl

/-! ## Claim theorems -/

/-- Claim C1: code-level evaluation at the failing input.  The agent
run executes one `get_pod_details` tool call (visible in the final
graph state), and the investigation then ends with an exception (the
status-update callback raises while persisting the completed result).
The returned failed result carries `tool_calls = []` and
`evidence = []`: the partial results collected before the failure are
discarded, not preserved as the claim states. -/
theorem failed_result_discards_partials :
    (runGraph c1_llm c1_toolRun 25 (initialState "inc-1" "corr-1" c1_desc)).map
      (fun s => collectToolCalls s.messages) =
      .ok [⟨"get_pod_details", [("pod", "nginx-abc")]⟩] ∧
    (investigate_incident c1_agentAttempts (some c1_cb) "inc-1" c1_desc (some "corr-1")).map
      (fun r => (r.status, r.error, r.tool_calls, r.evidence)) =
      .ok ("failed", some "DB write failed", [], []) := by
  exact ⟨by decide, by decide⟩

/-- Claim C3: code-level evaluation at the failing input.  With every
LLM invocation raising, the agent node exhausts its retry budget,
appends no message and sets `investigation_status = "failed"` (first
two conjuncts); but `investigate_incident` never reads that flag: it
picks the incident description (the last message with content) as the
final message and reports the investigation as completed, with the
description itself as root cause. -/
theorem agent_failure_reported_completed :
    agent_node c3_llm (initialState "inc-2" "corr-2" "Pod is crashing") =
      { messages := [], investigation_status := some "failed" } ∧
    runGraph c3_llm c3_toolRun 25 (initialState "inc-2" "corr-2" "Pod is crashing") =
      .ok c3_finalState ∧
    c3_finalState.investigation_status = "failed" ∧
    (investigate_incident c3_agentAttempts none "inc-2" "Pod is crashing" (some "corr-2")).map
      (fun r => (r.status, r.root_cause, r.confidence)) =
      .ok ("completed", some "Pod is crashing", some "medium") := by
  exact ⟨rfl, rfl, rfl, rfl⟩

/-- Claim C2 counterexample: an incident already `completed` is pushed
back to `in_progress` by `update_status`; the observable state changes,
the update is neither rejected nor ignored. -/
theorem completed_incident_mutated :
    get_by_id c2_repo1 "i1" ≠ get_by_id c2_repo0 "i1" ∧
    (get_by_id c2_repo1 "i1").map Incident.status = some "in_progress" := by
  exact ⟨by decide, by decide⟩

/-- Claim C2 (amended): `update_status` performs no transition-legality
check.  For any existing incident and any requested status the status
is applied unconditionally (stamping `completed_at` on `completed` and
`error_message`/`completed_at` on `failed` with an error detail);
terminal states are not protected. -/
theorem update_status_is_unchecked (repo : Repo) (id : String) (inc : Incident)
    (status : String) (details : Option (List (String × DV))) (now : Nat)
    (h : get_by_id repo id = some inc) :
    get_by_id (update_status repo id status details now) id =
      some (applyStatusUpdate inc status details now) ∧
    (applyStatusUpdate inc status details now).status = status := by
  constructor
  · unfold update_status
    rw [h]
    exact get_by_id_store repo id _
  · rfl

/-- Claim C2 witness: the amended theorem at the counterexample
store. -/
theorem update_status_is_unchecked_witness :
    get_by_id (update_status c2_repo0 "i1" "in_progress" none 11) "i1" =
      some (applyStatusUpdate c2_completedInc "in_progress" none 11) ∧
    (applyStatusUpdate c2_completedInc "in_progress" none 11).status = "in_progress" :=
  update_status_is_unchecked c2_repo0 "i1" c2_completedInc "in_progress" none 11 (by decide)

/-- Claim C5 counterexample: with two configured servers and the
connection to one of them failing during discovery, `initialize()`
re-raises the failure (it does not recover by omission) and the cached
tool list is empty — the healthy server's tools are absent too. -/
theorem single_server_failure_aborts_initialize :
    (MCPToolManager.initializeRegistry c5_state (.error "connection refused: prometheus")).2 =
      .error "connection refused: prometheus" ∧
    (MCPToolManager.initializeRegistry c5_state (.error "connection refused: prometheus")).1.tools =
      some [] := by
  exact ⟨rfl, rfl⟩

/-- Claim C5 (amended): when tool discovery against the configured
servers fails, `initialize()` logs the failure, caches an empty tool
list, marks the manager initialized, and re-raises the exception:
registry initialization is aborted as a whole, with no per-server
omission. -/
theorem initialize_discovery_failure_reraises (st : MCPManagerState) (e : String)
    (h1 : st.initialized = false) (h2 : st.config ≠ []) :
    MCPToolManager.initializeRegistry st (.error e) =
      ({ st with client := some st.config, tools := some [], initialized := true },
       .error e) :=
  initialize_error_case st e h1 h2

/-- Claim C5 witness. -/
theorem initialize_discovery_failure_reraises_witness :
    MCPToolManager.initializeRegistry c5w_state (.error "boom") =
      ({ c5w_state with client := some ["kubernetes"], tools := some [], initialized := true },
       .error "boom") :=
  initialize_discovery_failure_reraises c5w_state "boom" rfl (by decide)

/-- Claim C10: after a failed `initialize()` (tool discovery raised),
the manager is left marked initialized with an empty cached tool list:
`is_initialized()` is true, `get_tools()` returns `[]` without
reconnecting, a second `initialize()` returns the cached empty list on
the early-return path (whatever a new discovery would yield), and
`cleanup()` resets the state. -/
theorem failed_init_leaves_manager_initialized (st : MCPManagerState) (e : String)
    (d1 d2 : Except String (List MCPTool))
    (h1 : st.initialized = false) (h2 : st.config ≠ []) :
    (MCPToolManager.initializeRegistry st (.error e)).2 = .error e ∧
    MCPToolManager.is_initialized (MCPToolManager.initializeRegistry st (.error e)).1 = true ∧
    MCPToolManager.get_tools (MCPToolManager.initializeRegistry st (.error e)).1 d1 =
      ((MCPToolManager.initializeRegistry st (.error e)).1, .ok []) ∧
    MCPToolManager.initializeRegistry (MCPToolManager.initializeRegistry st (.error e)).1 d2 =
      ((MCPToolManager.initializeRegistry st (.error e)).1, .ok (some [])) ∧
    MCPToolManager.is_initialized
      (MCPToolManager.cleanup (MCPToolManager.initializeRegistry st (.error e)).1) = false ∧
    (MCPToolManager.cleanup (MCPToolManager.initializeRegistry st (.error e)).1).tools = none := by
  rw [initialize_error_case st e h1 h2]
  exact ⟨rfl, rfl, rfl, rfl, rfl, rfl⟩

/-- Claim C10 witness. -/
theorem failed_init_leaves_manager_initialized_witness :
    (MCPToolManager.initializeRegistry c5_state (.error "discovery failed")).2 =
      .error "discovery failed" ∧
    MCPToolManager.is_initialized
      (MCPToolManager.initializeRegistry c5_state (.error "discovery failed")).1 = true ∧
    MCPToolManager.get_tools (MCPToolManager.initializeRegistry c5_state (.error "discovery failed")).1
      (.ok []) =
      ((MCPToolManager.initializeRegistry c5_state (.error "discovery failed")).1, .ok []) ∧
    MCPToolManager.initializeRegistry (MCPToolManager.initializeRegistry c5_state (.error "discovery failed")).1
      (.ok [⟨"get_pod_details"⟩]) =
      ((MCPToolManager.initializeRegistry c5_state (.error "discovery failed")).1, .ok (some [])) ∧
    MCPToolManager.is_initialized
      (MCPToolManager.cleanup
        (MCPToolManager.initializeRegistry c5_state (.error "discovery failed")).1) = false ∧
    (MCPToolManager.cleanup
      (MCPToolManager.initializeRegistry c5_state (.error "discovery failed")).1).tools = none :=
  failed_init_leaves_manager_initialized c5_state "discovery failed" (.ok [])
    (.ok [⟨"get_pod_details"⟩]) rfl (by decide)

/-- Claim C8: with a non-empty message list, `should_continue` routes
to `tools` exactly when the last message carries at least one tool
call, and to `end` otherwise (zero tool calls, or a message type with
no `tool_calls` attribute, whose modelled tool-call list is empty). -/
theorem should_continue_routes_on_tool_calls (st : InvestigationState)
    (h : st.messages ≠ []) :
    (should_continue st = some "tools" ↔ (st.messages.getLast h).toolCalls ≠ []) ∧
    (should_continue st = some "end" ↔ (st.messages.getLast h).toolCalls = []) := by
  unfold should_continue
  rw [List.getLast?_eq_getLast st.messages h]
  by_cases hc : (st.messages.getLast h).toolCalls = [] <;>
    simp [hc, List.isEmpty_iff]

/-- Claim C8 witness: one state routed to `tools`, one to `end`. -/
theorem should_continue_routes_witness :
    should_continue c8_stA = some "tools" ∧ should_continue c8_stB = some "end" :=
  ⟨(should_continue_routes_on_tool_calls c8_stA (by decide)).1.mpr (by decide),
   (should_continue_routes_on_tool_calls c8_stB (by decide)).2.mpr (by decide)⟩

/-- Claim C9: `create_incident_sync` followed by `get_by_id` on the
returned id yields the same incident: status `pending`, the given
description, `completed_at` and `error_message` unset, and exactly one
`incident_created` step with status `completed` and the description in
its details. -/
theorem create_then_get (repo : Repo) (desc id : String) (now : Nat) :
    get_by_id (create_incident_sync repo desc id now).2 id =
      some (create_incident_sync repo desc id now).1 ∧
    (create_incident_sync repo desc id now).1.status = "pending" ∧
    (create_incident_sync repo desc id now).1.description = desc ∧
    (create_incident_sync repo desc id now).1.completed_at = none ∧
    (create_incident_sync repo desc id now).1.error_message = none ∧
    (create_incident_sync repo desc id now).1.investigation_steps =
      [⟨"incident_created", now, "completed", [("description", .str desc)]⟩] := by
  refine ⟨?_, rfl, rfl, rfl, rfl, rfl⟩
  exact get_by_id_store repo id _

/-- Claim C6 counterexample: marking a fresh incident `failed` through
`update_status` without error details leaves both `completed_at` and
`error_message` unset, violating the data-model invariant. -/
theorem failed_without_details_breaks_invariant :
    (get_by_id c6_repo1 "id-1").map (fun i => (i.status, i.completed_at, i.error_message)) =
      some ("failed", none, none) ∧
    ¬ invariantOk ((get_by_id c6_repo1 "id-1").getD dummyIncident) := by
  exact ⟨by decide, by decide⟩

/-- Claim C7 counterexample: a completed investigation whose final
message is `"."`.  The first-sentence fallback of
`extract_root_cause` yields the empty string, so the completed result
carries `root_cause = ""`, refuting `root_cause ≠ ∅`. -/
theorem completed_with_empty_root_cause :
    (investigate_incident c7_agentAttempts none "inc-3" "Pod down" (some "corr-3")).map
      (fun r => (r.status, r.root_cause)) = .ok ("completed", some "") := by
  decide

/-- Claim C4 counterexample: with `initial_delay = 20 > max_delay = 10`
and success on attempt 2, the code sleeps `initial_delay` un-capped
(total 20), while the claimed schedule `min(initial·base^0, max)` gives
10. -/
theorem retry_schedule_claim_false :
    retry_async c4cex_attempts c4cex_cfg = ([20], .ok 7) ∧
    (List.range (2 - 1)).map
      (fun i => min (c4cex_cfg.initial_delay * c4cex_cfg.exponential_base ^ i)
        c4cex_cfg.max_delay) = [10] ∧
    (20 : ℚ) ≠ 10 := by
  refine ⟨rfl, ?_, by norm_num⟩
  show [min (c4cex_cfg.initial_delay * c4cex_cfg.exponential_base ^ 0) c4cex_cfg.max_delay] = [10]
  rw [pow_zero, mul_one]
  norm_num [c4cex_cfg]

/-- Claim C4 (amended): for genuine backoff configurations
(`0 ≤ initial_delay ≤ max_delay`, `exponential_base ≥ 1`) the claimed
schedule holds.  Part one: an operation whose attempts before `k` fail
retryably and which succeeds on attempt `k` (`1 ≤ k ≤ max_attempts`)
sleeps exactly `min(initial_delay·base^(i-1), max_delay)` before each
later attempt `i+1 ≤ k`.  Part two: when all `max_attempts` attempts
fail retryably, the last failure is surfaced as-is after that full
sleep schedule.  (As stated in the claim — without the
`initial_delay ≤ max_delay` restriction — the schedule is refuted by
the counterexample theorem.) -/
theorem retry_sleep_schedule :
    (∀ (α : Type) (attempts : Nat → Attempt α) (cfg : RetryConfig) (k : Nat) (v : α),
      0 ≤ cfg.initial_delay → cfg.initial_delay ≤ cfg.max_delay →
      1 ≤ cfg.exponential_base →
      1 ≤ k → k ≤ cfg.max_attempts →
      (∀ i, 1 ≤ i → i < k → ∃ m, attempts i = .failure m true) →
      attempts k = .success v →
      retry_async attempts cfg =
        ((List.range (k - 1)).map
          (fun i => min (cfg.initial_delay * cfg.exponential_base ^ i) cfg.max_delay),
         .ok v)) ∧
    (∀ (α : Type) (attempts : Nat → Attempt α) (cfg : RetryConfig) (errs : Nat → String),
      0 ≤ cfg.initial_delay → cfg.initial_delay ≤ cfg.max_delay →
      1 ≤ cfg.exponential_base →
      1 ≤ cfg.max_attempts →
      (∀ i, 1 ≤ i → i ≤ cfg.max_attempts → attempts i = .failure (errs i) true) →
      retry_async attempts cfg =
        ((List.range (cfg.max_attempts - 1)).map
          (fun i => min (cfg.initial_delay * cfg.exponential_base ^ i) cfg.max_delay),
         .error (errs cfg.max_attempts))) := by
  constructor
  · intro α attempts cfg k v hd0 hdm hb hk1 hkM hfail hsucc
    unfold retry_async
    have hfail' : ∀ j, j < k - 1 → ∃ m, attempts (1 + j) = .failure m true := by
      intro j hj
      exact hfail (1 + j) (by omega) (by omega)
    have hsucc' : attempts (1 + (k - 1)) = .success v := by
      rwa [show 1 + (k - 1) = k by omega]
    rw [retryGo_success attempts cfg.exponential_base cfg.max_delay v (k - 1) 1
      cfg.max_attempts cfg.initial_delay [] hfail' hsucc' (by omega)]
    rw [List.reverse_nil, List.nil_append]
    have hiter : (fun i => (nextDelay cfg.exponential_base cfg.max_delay)^[i]
        cfg.initial_delay) =
        (fun i => min (cfg.initial_delay * cfg.exponential_base ^ i) cfg.max_delay) :=
      funext fun i => nextDelay_iterate cfg.exponential_base cfg.max_delay hb i
        cfg.initial_delay hd0 hdm
    rw [hiter]
  · intro α attempts cfg errs hd0 hdm hb hM hfail
    unfold retry_async
    have hfail' : ∀ j, j < cfg.max_attempts →
        attempts (1 + j) = .failure (errs (1 + j)) true := by
      intro j hj
      exact hfail (1 + j) (by omega) (by omega)
    rw [retryGo_allfail attempts cfg.exponential_base cfg.max_delay errs
      cfg.max_attempts 1 cfg.initial_delay [] hM hfail']
    rw [List.reverse_nil, List.nil_append]
    have hiter : (fun i => (nextDelay cfg.exponential_base cfg.max_delay)^[i]
        cfg.initial_delay) =
        (fun i => min (cfg.initial_delay * cfg.exponential_base ^ i) cfg.max_delay) :=
      funext fun i => nextDelay_iterate cfg.exponential_base cfg.max_delay hb i
        cfg.initial_delay hd0 hdm
    rw [hiter]
    rw [show 1 + (cfg.max_attempts - 1) = cfg.max_attempts by omega]

/-- Claim C4 witness: the defaults (3 attempts, delays 1/10, base 2),
succeeding on the third attempt resp. failing on all three. -/
theorem retry_sleep_schedule_witness :
    retry_async c4w_attempts c4w_cfg =
      ((List.range (3 - 1)).map
        (fun i => min (c4w_cfg.initial_delay * c4w_cfg.exponential_base ^ i)
          c4w_cfg.max_delay), .ok 42) ∧
    retry_async c4wf_attempts c4w_cfg =
      ((List.range (3 - 1)).map
        (fun i => min (c4w_cfg.initial_delay * c4w_cfg.exponential_base ^ i)
          c4w_cfg.max_delay), .error (c4w_errs 3)) :=
  ⟨retry_sleep_schedule.1 Nat c4w_attempts c4w_cfg 3 42 (by decide) (by decide)
    (by decide) (by decide) (by decide)
    (fun i _ h2 => ⟨"timeout", by simp [c4w_attempts, h2]⟩) (by decide),
   retry_sleep_schedule.2 Nat c4wf_attempts c4w_cfg c4w_errs (by decide) (by decide)
    (by decide) (by decide) (fun i _ _ => rfl)⟩

/-- Claim C6 (amended): the terminal invariant — terminal status has
`completed_at` set, failed status has a non-empty `error_message` —
holds for incidents created by `create_incident_sync` and for incidents
updated by `investigate_incident_async`, provided the exception and
error messages involved are non-empty strings.  (`update_status` does
not maintain it: the counterexample theorem marks an incident failed
without error details, leaving both fields unset.) -/
theorem repository_terminal_invariant
    (repo : Repo) (id : String) (inc : Incident)
    (agentCreation : Except String Unit) (toolCount : Nat)
    (runResult : Except String InvestigationResult) (now : Nat)
    (desc newId : String) (cnow : Nat)
    (h : get_by_id repo id = some inc)
    (hok : ∀ r, runResult = .ok r → r.error ≠ some "")
    (herr : ∀ e, runResult = .error e → e ≠ "")
    (hagent : ∀ e, agentCreation = .error e → e ≠ "") :
    invariantOk (create_incident_sync repo desc newId cnow).1 ∧
    (∃ inc',
      get_by_id (investigate_incident_async repo id agentCreation toolCount runResult now)
        id = some inc' ∧ invariantOk inc') := by
  constructor
  · constructor
    · rintro (hst | hst) <;> simp [create_incident_sync] at hst
    · intro hst; simp [create_incident_sync] at hst
  · unfold investigate_incident_async
    rw [h]
    unfold _investigate_incident
    cases agentCreation with
    | error e =>
        refine ⟨_, get_by_id_store _ _ _, ?_, ?_⟩
        · intro _; simp
        · intro _
          refine ⟨by simp, ?_⟩
          simp only [ne_eq, Option.some.injEq]
          exact hagent e rfl
    | ok u =>
        cases runResult with
        | error e =>
            refine ⟨_, get_by_id_store _ _ _, ?_, ?_⟩
            · intro _; simp
            · intro _
              refine ⟨by simp, ?_⟩
              simp only [ne_eq, Option.some.injEq]
              exact herr e rfl
        | ok r =>
            by_cases hst : r.status = "completed"
            · simp only [hst, if_true, ite_true, if_pos]
              refine ⟨_, get_by_id_store _ _ _, ?_, ?_⟩
              · intro _
                show (completedUpdate _ r now).completed_at ≠ none
                simp [completedUpdate]
              · intro hfailed
                simp [completedUpdate] at hfailed
            · simp only [hst, if_false, ite_false, if_neg hst]
              refine ⟨_, get_by_id_store _ _ _, ?_, ?_⟩
              · intro _
                show (failedUpdate _ r now).completed_at ≠ none
                simp [failedUpdate]
              · intro _
                refine ⟨?_, ?_⟩
                · show (failedUpdate _ r now).error_message ≠ none
                  simp [failedUpdate]
                · show (failedUpdate _ r now).error_message ≠ some ""
                  show some ((r.error).getD "Unknown error") ≠ some ""
                  cases herror : r.error with
                  | none => simp
                  | some s =>
                      simp only [Option.getD_some, ne_eq, Option.some.injEq]
                      intro hs
                      exact hok r rfl (by rw [herror, hs])

/-- Claim C6 witness: the invariant holds of a fresh pending incident
and of the incident stored after a failed background investigation. -/
theorem repository_terminal_invariant_witness :
    invariantOk (create_incident_sync [] "network partition" "id-3" 0).1 ∧
    (∃ inc',
      get_by_id (investigate_incident_async c6w_repo "id-2" (.ok ()) 2
        (.ok (mkErrorResult "LLM down" "corr-9")) 5) "id-2" = some inc' ∧
      invariantOk inc') :=
  repository_terminal_invariant c6w_repo "id-2"
    (create_incident_sync [] "pod crashloop" "id-2" 0).1 (.ok ()) 2
    (.ok (mkErrorResult "LLM down" "corr-9")) 5 "network partition" "id-3" 0
    (by decide) (fun r hr => by cases hr; decide) (fun e he => by cases he)
    (fun e he => by cases he)

/-- Claim C7 (amended): every result returned by `investigate_incident`
with status `completed` has a confidence drawn from
`{high, medium, low}` (explicit `CONFIDENCE:` marker, else keyword
scan, else `medium`) and a present (non-`None`) `root_cause` — which
may however be the empty string, as the counterexample theorem shows
for a final message `"."`. -/
theorem completed_results_wellformed
    (agentAttempts : InvestigationState → Nat → Attempt InvestigationState)
    (cb : Option (String → Except String Unit)) (iid desc : String)
    (cid : Option String) (r : InvestigationResult)
    (h : investigate_incident agentAttempts cb iid desc cid = .ok r)
    (hst : r.status = "completed") :
    (r.confidence = some "high" ∨ r.confidence = some "medium" ∨
      r.confidence = some "low") ∧ r.root_cause ≠ none := by
  unfold investigate_incident at h
  dsimp only at h
  split at h
  · injection h with h'
    subst h'
    rename_i res heqA
    split at heqA
    · simp at heqA
    · rename_i u1 heq1
      split at heqA
      · simp at heqA
      · rename_i fs heqRetry
        split at heqA
        · simp at heqA
        · rename_i fm heqFind
          split at heqA
          · simp at heqA
          · rename_i u2 heqCb
            injection heqA with h2
            subst h2
            constructor
            · rcases toStr_mem (extract_confidence fm.content) with hc | hc | hc <;>
                simp [mkCompletedResult, hc]
            · have hfm : fm.content ≠ "" := by
                have hp := List.find?_some heqFind
                simpa using hp
              show extract_root_cause fm.content ≠ none
              exact extract_root_cause_isSome fm.content hfm
  · split at h
    · simp at h
    · injection h with h'
      subst h'
      simp [mkErrorResult] at hst

/-- Claim C7 witness: the amended theorem at a concrete completed
run. -/
theorem completed_results_wellformed_witness :
    (c7w_result.confidence = some "high" ∨ c7w_result.confidence = some "medium" ∨
      c7w_result.confidence = some "low") ∧ c7w_result.root_cause ≠ none :=
  completed_results_wellformed c7_agentAttempts none "inc-4" "Node not ready"
    (some "corr-4") c7w_result (by rfl) (by rfl)

end SREOrch
